import Mathlib

/-!
Shallow embedding of the Time-tracker notification-scheduling and
session-state engine: `src/services/TimeTrackingService.ts`,
`src/services/StorageService.ts` (persisted session blob) and the
zustand store actions in `src/store/useTimeTrackerStore.ts`.

Timestamps are modelled as `Int` milliseconds since the epoch
(`Date.getTime()`); the persistent store is an explicit record threaded
through each operation; JavaScript exceptions become `Except String`.
-/

namespace TimeTracker

/-- `QuietTime` from `src/types/index.ts`: an HH:MM window on selected
weekdays during which prompts are suppressed. `days` holds the numeric
`DayOfWeek` values 0 (Sunday) .. 6 (Saturday). -/
structure QuietTime where
  id : String
  name : String
  startTime : String
  endTime : String
  days : List Nat
  enabled : Bool
deriving Repr, DecidableEq

/-- `Activity` from `src/types/index.ts`; `Date` fields become `Int`
milliseconds. -/
structure Activity where
  id : String
  description : String
  tags : List String
  plannedNext : Option String
  mood : Option Nat
  excuse : Option String
  startTime : Int
  endTime : Int
  duration : Int
  createdAt : Int
deriving Repr, DecidableEq

/-- The session blob persisted by `StorageService.saveSession`:
`{ start, lastNotification }`. -/
structure PersistedSession where
  start : Int
  lastNotification : Int
deriving Repr, DecidableEq

/-- The persistent key-value store kept by `StorageService`: the session
blob (absent when idle) and the append-only activity log. -/
structure Store where
  session : Option PersistedSession
  activities : List Activity
deriving Repr, DecidableEq

/-- The private fields of `TimeTrackingService`. `timerId` is the
`setInterval` handle of the 1-second poll loop (`none` when no loop is
running). -/
structure ServiceState where
  timerId : Option Nat
  sessionStartTime : Option Int
  lastNotificationTime : Option Int
  notificationInterval : Int
  isQuietMode : Bool
  quietTimes : List QuietTime
deriving Repr, DecidableEq

/-- The field initializers of `TimeTrackingService` (before the
constructor runs `loadSessionIfExists`): no timer, no session, default
15000 ms interval, quiet mode off, no quiet times. -/
def initialService : ServiceState :=
  { timerId := none
    sessionStartTime := none
    lastNotificationTime := none
    notificationInterval := 15000
    isQuietMode := false
    quietTimes := [] }

/-- A store with no persisted session and no activities. -/
def emptyStore : Store := { session := none, activities := [] }

/-- The wall clock observed by one poll tick: `Date.getTime()`,
`Date.getDay()`, `Date.getHours()`, `Date.getMinutes()`. -/
structure Clock where
  nowMs : Int
  day : Nat
  hours : Nat
  minutes : Nat

/-- `String.prototype.padStart(len, c)`: left-pad to length `len`;
a string already at least that long is returned unchanged. -/
def padStart (s : String) (len : Nat) (c : Char) : String :=
  String.mk (List.replicate (len - s.length) c) ++ s

/-- The current-time string built in `isInQuietTime`:
zero-padded `HH:MM`. -/
def currentTimeString (hours minutes : Nat) : String :=
  padStart (toString hours) 2 '0' ++ ":" ++ padStart (toString minutes) 2 '0'

/-- The predicate applied to each quiet time inside
`TimeTrackingService.isInQuietTime`: enabled, today in `days`, and
`startTime <= currentTime && currentTime <= endTime` under string
(lexicographic) comparison. -/
def quietTimeMatches (qt : QuietTime) (currentDay : Nat) (currentTime : String) : Bool :=
  if !qt.enabled then false
  else if !(qt.days.contains currentDay) then false
  else decide (qt.startTime ≤ currentTime) && decide (currentTime ≤ qt.endTime)

/-- `TimeTrackingService.isInQuietTime`, with the wall-clock day and
formatted time passed explicitly. -/
def isInQuietTime (qts : List QuietTime) (currentDay : Nat) (currentTime : String) : Bool :=
  qts.any fun qt => quietTimeMatches qt currentDay currentTime

/-- Result of one poll tick: the updated service state, the updated
store, and whether a `notification-due` prompt fired. -/
structure TickResult where
  svc : ServiceState
  store : Store
  fired : Bool
deriving Repr, DecidableEq

/-- `TimeTrackingService.triggerNotification`: sets
`lastNotificationTime = now`, persists the session when a
`sessionStartTime` exists, shows the notification and emits
`notification-due` (the emission is the `fired` flag). -/
def triggerNotification (now : Int) (s : ServiceState) (st : Store) : TickResult :=
  let s' := { s with lastNotificationTime := some now }
  let st' :=
    match s.sessionStartTime with
    | some start => { st with session := some { start := start, lastNotification := now } }
    | none => st
  { svc := s', store := st', fired := true }

/-- `TimeTrackingService.checkForNotification`, run once per second by
the poll loop: bail out when there is no `lastNotificationTime`, when a
quiet-time window matches, or when quiet mode is on; otherwise fire when
`now - lastNotificationTime >= notificationInterval`. -/
def checkForNotification (c : Clock) (s : ServiceState) (st : Store) : TickResult :=
  match s.lastNotificationTime with
  | none => { svc := s, store := st, fired := false }
  | some last =>
    if isInQuietTime s.quietTimes c.day (currentTimeString c.hours c.minutes) then
      { svc := s, store := st, fired := false }
    else if s.isQuietMode then
      { svc := s, store := st, fired := false }
    else if c.nowMs - last ≥ s.notificationInterval then
      triggerNotification c.nowMs s st
    else
      { svc := s, store := st, fired := false }

/-- `TimeTrackingService.startTracking`: warn-and-return when a timer is
already running; otherwise set both timestamps to now, persist the
session, and start the 1-second poll loop (modelled as `timerId = some 1`). -/
def startTracking (now : Int) (s : ServiceState) (st : Store) : ServiceState × Store :=
  if s.timerId.isSome then (s, st)
  else
    ({ s with sessionStartTime := some now, lastNotificationTime := some now, timerId := some 1 },
     { st with session := some { start := now, lastNotification := now } })

/-- `TimeTrackingService.stopTracking`: clear the poll timer, null both
timestamps, and clear the persisted session. -/
def stopTracking (s : ServiceState) (st : Store) : ServiceState × Store :=
  ({ s with timerId := none, sessionStartTime := none, lastNotificationTime := none },
   { st with session := none })

/-- `TimeTrackingService.generateId`: `Date.now()` plus a random base-36
suffix; the random part is passed in explicitly. -/
def generateId (now : Int) (randSuffix : String) : String :=
  toString now ++ "-" ++ randSuffix

/-- Result of a successful `addActivity` call. -/
structure RecordResult where
  svc : ServiceState
  store : Store
  activity : Activity
deriving Repr, DecidableEq

/-- `TimeTrackingService.addActivity`: throws `No active session` when
`sessionStartTime` or `lastNotificationTime` is null; otherwise builds
an activity back-dated to `[lastNotificationTime - notificationInterval,
lastNotificationTime]` with `duration = notificationInterval`, appends
it to the persisted log (`StorageService.addActivity` pushes onto the
loaded array) and emits `activity-added`. It does not modify any
scheduler field. -/
def addActivity (now : Int) (randSuffix : String) (description : String) (tags : List String)
    (plannedNext : Option String) (mood : Option Nat) (excuse : Option String)
    (s : ServiceState) (st : Store) : Except String RecordResult :=
  match s.sessionStartTime, s.lastNotificationTime with
  | some _, some last =>
    let previousNotificationTime := last - s.notificationInterval
    let activity : Activity :=
      { id := generateId now randSuffix
        description := description
        tags := tags
        plannedNext := plannedNext
        mood := mood
        excuse := excuse
        startTime := previousNotificationTime
        endTime := last
        duration := s.notificationInterval
        createdAt := now }
    Except.ok
      { svc := s
        store := { st with activities := st.activities ++ [activity] }
        activity := activity }
  | _, _ => Except.error "No active session"

/-- `TimeTrackingService.setNotificationInterval`: throws when the value
is below 1000 ms, otherwise updates the interval field read by every
future poll. -/
def setNotificationInterval (milliseconds : Int) (s : ServiceState) : Except String ServiceState :=
  if milliseconds < 1000 then Except.error "Interval must be at least 1 second"
  else Except.ok { s with notificationInterval := milliseconds }

/-- `TimeTrackingService.setQuietMode`. -/
def setQuietMode (enabled : Bool) (s : ServiceState) : ServiceState :=
  { s with isQuietMode := enabled }

/-- `TimeTrackingService.setQuietTimes`. -/
def setQuietTimes (qts : List QuietTime) (s : ServiceState) : ServiceState :=
  { s with quietTimes := qts }

/-- Return value of `TimeTrackingService.getSessionInfo`. -/
structure SessionInfo where
  isActive : Bool
  startTime : Option Int
  lastNotificationTime : Option Int
  duration : Int
deriving Repr, DecidableEq

/-- `TimeTrackingService.getSessionInfo`: `isActive` is whether the poll
timer handle is non-null; `duration` is elapsed time since
`sessionStartTime`, or 0 without one. -/
def getSessionInfo (now : Int) (s : ServiceState) : SessionInfo :=
  { isActive := s.timerId.isSome
    startTime := s.sessionStartTime
    lastNotificationTime := s.lastNotificationTime
    duration :=
      match s.sessionStartTime with
      | some start => now - start
      | none => 0 }

/-- `TimeTrackingService.loadSessionIfExists`, run by the constructor on
process start: restore the two timestamps when the persisted session is
younger than one hour, otherwise clear the persisted session. The poll
timer is not touched. -/
def loadSessionIfExists (now : Int) (s : ServiceState) (st : Store) : ServiceState × Store :=
  match st.session with
  | none => (s, st)
  | some session =>
    if now - session.start < 3600000 then
      ({ s with
          sessionStartTime := some session.start
          lastNotificationTime := some session.lastNotification }, st)
    else
      (s, { st with session := none })

/-- `TimeTrackingService.skipNotification`: reset
`lastNotificationTime = now` without creating an activity, persisting
the session when one exists. -/
def skipNotification (now : Int) (s : ServiceState) (st : Store) : ServiceState × Store :=
  let s' := { s with lastNotificationTime := some now }
  match s.sessionStartTime with
  | some start => (s', { st with session := some { start := start, lastNotification := now } })
  | none => (s', st)

/-- The slice of the zustand store (`useTimeTrackerStore`) driving the
stop-tracking flow, combined with the service state and the persistent
store it acts on. -/
structure AppState where
  svc : ServiceState
  store : Store
  isTracking : Bool
  isStopping : Bool
  showActivityModal : Bool
  sessionStartTime : Option Int
  lastNotificationTime : Option Int
deriving Repr, DecidableEq

/-- `useTimeTrackerStore.stopTracking`: only opens the activity modal
and raises the `isStopping` flag; the actual teardown happens after the
user submits or skips in the modal. -/
def storeStopTracking (a : AppState) : AppState :=
  { a with showActivityModal := true, isStopping := true }

/-- `useTimeTrackerStore.finalizeStopTracking`: tear down the service
(clearing timer, timestamps and persisted session) and reset the UI
flags. -/
def finalizeStopTracking (a : AppState) : AppState :=
  let p := stopTracking a.svc a.store
  { a with
      svc := p.1
      store := p.2
      isTracking := false
      isStopping := false
      sessionStartTime := none
      lastNotificationTime := none
      showActivityModal := false }

/-- `useTimeTrackerStore.addActivity`: record via the service; on
success finalize the stop when `isStopping` is set, otherwise just close
the modal; on error log and leave the state alone. -/
def storeAddActivity (now : Int) (randSuffix : String) (description : String) (tags : List String)
    (plannedNext : Option String) (mood : Option Nat) (excuse : Option String)
    (a : AppState) : AppState :=
  match addActivity now randSuffix description tags plannedNext mood excuse a.svc a.store with
  | Except.ok r =>
    let a' := { a with svc := r.svc, store := r.store }
    if a'.isStopping then finalizeStopTracking a'
    else { a' with showActivityModal := false }
  | Except.error _ => a

/-- `useTimeTrackerStore.skipActivity`: record the sentinel
`Activity skipped` entry tagged `:skipped`; on success finalize the stop
when `isStopping` is set, otherwise close the modal; on error just close
the modal. -/
def storeSkipActivity (now : Int) (randSuffix : String) (a : AppState) : AppState :=
  match addActivity now randSuffix "Activity skipped" [":skipped"] none none none a.svc a.store with
  | Except.ok r =>
    let a' := { a with svc := r.svc, store := r.store }
    if a'.isStopping then finalizeStopTracking a'
    else { a' with showActivityModal := false }
  | Except.error _ => { a with showActivityModal := false }

/-! Concrete states used by witnesses and counterexamples. -/

/-- A service state in the middle of a tracking session started at time 0
with the default 15000 ms interval. -/
def sampleTracking : ServiceState :=
  { timerId := some 1
    sessionStartTime := some 0
    lastNotificationTime := some 0
    notificationInterval := 15000
    isQuietMode := false
    quietTimes := [] }

/-- The store persisted alongside `sampleTracking`. -/
def sampleStore : Store :=
  { session := some { start := 0, lastNotification := 0 }, activities := [] }

/-- C5: `addActivity` throws `No active session` exactly when `sessionStartTime` or
`lastNotificationTime` is null; with both set it returns an activity whose
`startTime = lastNotificationTime - notificationInterval`,
`endTime = lastNotificationTime` and `duration = notificationInterval`, so
`endTime - startTime = duration = notificationInterval` exactly. -/
theorem c5_addActivity_boundaries (now : Int) (randSuffix description : String)
    (tags : List String) (plannedNext : Option String) (mood : Option Nat)
    (excuse : Option String) (s : ServiceState) (st : Store) :
    ((s.sessionStartTime = none ∨ s.lastNotificationTime = none) →
      addActivity now randSuffix description tags plannedNext mood excuse s st =
        Except.error "No active session") ∧
    (∀ start last, s.sessionStartTime = some start → s.lastNotificationTime = some last →
      ∃ r, addActivity now randSuffix description tags plannedNext mood excuse s st =
          Except.ok r ∧
        r.activity.startTime = last - s.notificationInterval ∧
        r.activity.endTime = last ∧
        r.activity.duration = s.notificationInterval ∧
        r.activity.endTime - r.activity.startTime = r.activity.duration) := by
  constructor
  · intro h
    cases hs : s.sessionStartTime <;> cases hl : s.lastNotificationTime <;>
      simp_all [addActivity]
  · intro start last hs hl
    simp only [addActivity, hs, hl]
    refine ⟨_, rfl, rfl, rfl, rfl, ?_⟩
    simp only []
    omega

/-- Witness for C5 at concrete inputs: the idle initial state is rejected, and
`sampleTracking` yields an activity spanning exactly one interval. -/
theorem c5_witness :
    addActivity 20000 "r" "coding" [] none none none initialService emptyStore =
      Except.error "No active session" ∧
    ∃ r, addActivity 20000 "r" "coding" [] none none none sampleTracking sampleStore =
        Except.ok r ∧
      r.activity.startTime = 0 - sampleTracking.notificationInterval ∧
      r.activity.endTime = 0 ∧
      r.activity.duration = sampleTracking.notificationInterval ∧
      r.activity.endTime - r.activity.startTime = r.activity.duration :=
  ⟨(c5_addActivity_boundaries 20000 "r" "coding" [] none none none initialService
      emptyStore).1 (Or.inl rfl),
   (c5_addActivity_boundaries 20000 "r" "coding" [] none none none sampleTracking
      sampleStore).2 0 0 rfl rfl⟩

/-- C8: `setNotificationInterval` succeeds for every value of at least 1000 ms,
updating the interval field that every future poll reads; below 1000 ms it
throws `InvalidArgument` and produces no updated state, so the previously
configured interval stays in force. -/
theorem c8_setNotificationInterval_validation (ms : Int) (s : ServiceState) (st : Store) :
    (1000 ≤ ms →
      setNotificationInterval ms s = Except.ok { s with notificationInterval := ms } ∧
      ∀ (c : Clock) (last : Int),
        s.lastNotificationTime = some last →
        isInQuietTime s.quietTimes c.day (currentTimeString c.hours c.minutes) = false →
        s.isQuietMode = false →
        ((checkForNotification c { s with notificationInterval := ms } st).fired = true ↔
          ms ≤ c.nowMs - last)) ∧
    (ms < 1000 →
      setNotificationInterval ms s = Except.error "Interval must be at least 1 second" ∧
      ∀ s', setNotificationInterval ms s = Except.ok s' → False) := by
  constructor
  · intro h
    constructor
    · simp [setNotificationInterval]
      omega
    · intro c last hl hq hm
      simp only [checkForNotification, hl, hq, hm]
      simp only [Bool.false_eq_true, if_false]
      split
      · simpa [triggerNotification] using by assumption
      · simp_all
  · intro h
    constructor
    · simp [setNotificationInterval, h]
    · intro s' hs'
      simp [setNotificationInterval, h] at hs'

/-- Witness for C8: 15000 ms is accepted and governs when a poll fires; 500 ms is
rejected. -/
theorem c8_witness :
    setNotificationInterval 15000 sampleTracking =
      Except.ok { sampleTracking with notificationInterval := 15000 } ∧
    ((checkForNotification { nowMs := 20000, day := 1, hours := 10, minutes := 0 }
        { sampleTracking with notificationInterval := 15000 } sampleStore).fired = true ↔
      (15000 : Int) ≤ 20000 - 0) ∧
    setNotificationInterval 500 sampleTracking =
      Except.error "Interval must be at least 1 second" :=
  ⟨((c8_setNotificationInterval_validation 15000 sampleTracking sampleStore).1
      (by decide)).1,
   ((c8_setNotificationInterval_validation 15000 sampleTracking sampleStore).1
      (by decide)).2 { nowMs := 20000, day := 1, hours := 10, minutes := 0 } 0 rfl rfl rfl,
   ((c8_setNotificationInterval_validation 500 sampleTracking sampleStore).2
      (by decide)).1⟩

/-- C9: calling `startTracking` with a running timer is a no-op that changes
neither the service state nor the store; starting from an idle state creates
exactly one poll loop (`timerId = some 1`, reported active), and a second call
on the resulting state leaves it exactly as it was. -/
theorem c9_startTracking_idempotent (now now2 : Int) (s : ServiceState) (st : Store) :
    (s.timerId.isSome = true → startTracking now s st = (s, st)) ∧
    (s.timerId = none →
      (startTracking now s st).1.timerId = some 1 ∧
      (getSessionInfo now (startTracking now s st).1).isActive = true ∧
      startTracking now2 (startTracking now s st).1 (startTracking now s st).2 =
        startTracking now s st) := by
  constructor
  · intro h
    simp [startTracking, h]
  · intro h
    refine ⟨?_, ?_, ?_⟩ <;> simp [startTracking, getSessionInfo, h]

/-- Witness for C9: starting from the idle initial state at time 100, a second
start at time 200 changes nothing. -/
theorem c9_witness :
    (startTracking 100 initialService emptyStore).1.timerId = some 1 ∧
    startTracking 200 (startTracking 100 initialService emptyStore).1
        (startTracking 100 initialService emptyStore).2 =
      startTracking 100 initialService emptyStore :=
  ⟨((c9_startTracking_idempotent 100 200 initialService emptyStore).2 rfl).1,
   ((c9_startTracking_idempotent 100 200 initialService emptyStore).2 rfl).2.2⟩

/-- The tick that fires the first prompt on `sampleTracking`: 15000 ms have
elapsed since the last notification at time 0. -/
def samplePromptTick : TickResult :=
  checkForNotification { nowMs := 15000, day := 1, hours := 10, minutes := 0 }
    sampleTracking sampleStore

/-- C1 counterexample: on the poll tick that fires the prompt,
`triggerNotification` has already moved `lastNotificationTime` from 0 to 15000
and persisted it, and the subsequent `addActivity` leaves it at 15000 instead
of advancing it — the opposite of the claimed division of labour. -/
theorem c1_counterexample :
    samplePromptTick.fired = true ∧
    sampleTracking.lastNotificationTime = some 0 ∧
    samplePromptTick.svc.lastNotificationTime = some 15000 ∧
    samplePromptTick.store.session = some { start := 0, lastNotification := 15000 } ∧
    (addActivity 20000 "r" "coding" [] none none none samplePromptTick.svc
        samplePromptTick.store).map (fun r => r.svc.lastNotificationTime) =
      Except.ok (some 15000) :=
  ⟨rfl, rfl, rfl, rfl, rfl⟩

/-- C1 (amended): when the prompt fires, `triggerNotification` immediately sets
`lastPromptTime` to now and persists it; `addActivity` never modifies
`lastPromptTime` — it only back-dates the activity from the value the trigger
already advanced. -/
theorem c1_trigger_advances_lastPromptTime (now recNow : Int)
    (randSuffix description : String) (tags : List String) (s : ServiceState)
    (st : Store) (start : Int) (hstart : s.sessionStartTime = some start) :
    (triggerNotification now s st).svc.lastNotificationTime = some now ∧
    (triggerNotification now s st).store.session =
      some { start := start, lastNotification := now } ∧
    (∀ r, addActivity recNow randSuffix description tags none none none s st =
        Except.ok r →
      r.svc.lastNotificationTime = s.lastNotificationTime) := by
  refine ⟨rfl, ?_, ?_⟩
  · simp [triggerNotification, hstart]
  · intro r hr
    cases hl : s.lastNotificationTime with
    | none => simp [addActivity, hstart, hl] at hr
    | some last =>
      simp only [addActivity, hstart, hl, Except.ok.injEq] at hr
      subst hr
      exact hl

/-- Witness for C1 at the sample session: firing at 15000 persists
`lastNotification = 15000`, and a recorded activity leaves
`lastNotificationTime` at its prior value. -/
theorem c1_witness :
    (triggerNotification 15000 sampleTracking sampleStore).svc.lastNotificationTime =
      some 15000 ∧
    (triggerNotification 15000 sampleTracking sampleStore).store.session =
      some { start := 0, lastNotification := 15000 } ∧
    ∀ r, addActivity 20000 "r" "coding" [] none none none sampleTracking sampleStore =
        Except.ok r →
      r.svc.lastNotificationTime = sampleTracking.lastNotificationTime :=
  c1_trigger_advances_lastPromptTime 15000 20000 "r" "coding" [] sampleTracking
    sampleStore 0 rfl

/-- A persisted session 30 minutes old at wall-clock time 1800000. -/
def persistedYoung : Store :=
  { session := some { start := 0, lastNotification := 10000 }, activities := [] }

/-- C3 counterexample: recovering the 30-minute-old persisted session restores
both timestamps, yet `getSessionInfo` reports `isActive = false` because the
poll timer was never restarted — contradicting the claim that the recovered
state is reported as an active session. -/
theorem c3_counterexample :
    (loadSessionIfExists 1800000 initialService persistedYoung).1.sessionStartTime =
      some 0 ∧
    (loadSessionIfExists 1800000 initialService persistedYoung).1.lastNotificationTime =
      some 10000 ∧
    (getSessionInfo 1800000
        (loadSessionIfExists 1800000 initialService persistedYoung).1).isActive = false :=
  ⟨rfl, rfl, rfl⟩

/-- C3 (amended): on process start a persisted session younger than one hour is
restored into memory (`startTime`/`lastPromptTime` taken from the store), but
the poll timer is not restarted, so `getSessionInfo` reports the restored
session as inactive; an older persisted session is discarded, the state stays
idle and the store's session blob is cleared. -/
theorem c3_session_recovery (now : Int) (sess : PersistedSession) (st : Store)
    (hsess : st.session = some sess) :
    (now - sess.start < 3600000 →
      loadSessionIfExists now initialService st =
        ({ initialService with
            sessionStartTime := some sess.start
            lastNotificationTime := some sess.lastNotification }, st) ∧
      (getSessionInfo now (loadSessionIfExists now initialService st).1).isActive =
        false) ∧
    (3600000 ≤ now - sess.start →
      loadSessionIfExists now initialService st =
        (initialService, { st with session := none }) ∧
      (loadSessionIfExists now initialService st).1.sessionStartTime = none ∧
      (loadSessionIfExists now initialService st).2.session = none) := by
  constructor
  · intro h
    simp [loadSessionIfExists, hsess, h, getSessionInfo, initialService]
  · intro h
    have h' : ¬(now - sess.start < 3600000) := by omega
    simp [loadSessionIfExists, hsess, h', initialService]

/-- Witness for C3: a session started at time 0 is restored (but inactive) at
time 1800000 and discarded at time 7200000. -/
theorem c3_witness :
    loadSessionIfExists 1800000 initialService persistedYoung =
      ({ initialService with
          sessionStartTime := some 0
          lastNotificationTime := some 10000 }, persistedYoung) ∧
    loadSessionIfExists 7200000 initialService persistedYoung =
      (initialService, { persistedYoung with session := none }) :=
  ⟨((c3_session_recovery 1800000 { start := 0, lastNotification := 10000 }
      persistedYoung rfl).1 (by decide)).1,
   ((c3_session_recovery 7200000 { start := 0, lastNotification := 10000 }
      persistedYoung rfl).2 (by decide)).1⟩

/-- C10: `addActivity` only checks that the two timestamps are non-null, not
that the poll timer is running; after recovering a persisted session younger
than one hour the timer is still `none` and `getSessionInfo` reports
`isActive = false`, yet `addActivity` succeeds and records an activity ending
at the persisted `lastNotification` boundary. -/
theorem c10_recovered_session_records (now recNow : Int)
    (randSuffix description : String) (tags : List String)
    (sess : PersistedSession) (st : Store) (hsess : st.session = some sess)
    (hyoung : now - sess.start < 3600000) :
    (loadSessionIfExists now initialService st).1.timerId = none ∧
    (getSessionInfo recNow (loadSessionIfExists now initialService st).1).isActive =
      false ∧
    ∃ r, addActivity recNow randSuffix description tags none none none
        (loadSessionIfExists now initialService st).1
        (loadSessionIfExists now initialService st).2 = Except.ok r ∧
      r.activity.endTime = sess.lastNotification := by
  have hload : loadSessionIfExists now initialService st =
      ({ initialService with
          sessionStartTime := some sess.start
          lastNotificationTime := some sess.lastNotification }, st) := by
    simp [loadSessionIfExists, hsess, hyoung]
  refine ⟨?_, ?_, ?_⟩
  · rw [hload]
    rfl
  · rw [hload]
    rfl
  · rw [hload]
    simp only [addActivity]
    exact ⟨_, rfl, rfl⟩

/-- Witness for C10: the session recovered at time 1800000 is inactive but
still accepts an activity recorded at time 1805000. -/
theorem c10_witness :
    (getSessionInfo 1805000
        (loadSessionIfExists 1800000 initialService persistedYoung).1).isActive = false ∧
    ∃ r, addActivity 1805000 "r" "reading" [] none none none
        (loadSessionIfExists 1800000 initialService persistedYoung).1
        (loadSessionIfExists 1800000 initialService persistedYoung).2 = Except.ok r ∧
      r.activity.endTime = 10000 :=
  ⟨(c10_recovered_session_records 1800000 1805000 "r" "reading" []
      { start := 0, lastNotification := 10000 } persistedYoung rfl (by decide)).2.1,
   (c10_recovered_session_records 1800000 1805000 "r" "reading" []
      { start := 0, lastNotification := 10000 } persistedYoung rfl (by decide)).2.2⟩

/-- The per-element check of `isInQuietTime`, unfolded: a quiet time matches
exactly when it is enabled, includes today's weekday, and the current HH:MM
string lies between its bounds lexicographically. -/
theorem quietTimeMatches_eq_true (qt : QuietTime) (d : Nat) (t : String) :
    quietTimeMatches qt d t = true ↔
      qt.enabled = true ∧ d ∈ qt.days ∧ qt.startTime ≤ t ∧ t ≤ qt.endTime := by
  unfold quietTimeMatches
  split_ifs with h1 h2 <;> simp_all

/-- C6: the quiet-period check suppresses exactly when some enabled quiet time
whose days contain today's weekday brackets the zero-padded `HH:MM` string
lexicographically; and any quiet time whose `startTime` exceeds its `endTime`
lexicographically (a cross-midnight window) matches no time string at all. -/
theorem c6_quiet_window_lexicographic (qts : List QuietTime) (day hours minutes : Nat) :
    (isInQuietTime qts day (currentTimeString hours minutes) = true ↔
      ∃ qt ∈ qts, qt.enabled = true ∧ day ∈ qt.days ∧
        qt.startTime ≤ currentTimeString hours minutes ∧
        currentTimeString hours minutes ≤ qt.endTime) ∧
    (∀ qt : QuietTime, qt.endTime < qt.startTime →
      ∀ t : String, ¬(qt.startTime ≤ t ∧ t ≤ qt.endTime)) := by
  constructor
  · simp only [isInQuietTime, List.any_eq_true, quietTimeMatches_eq_true]
  · rintro qt hlt t ⟨h1, h2⟩
    exact absurd (le_trans h1 h2) (not_le.mpr hlt)

/-- A 22:00–06:00 quiet window enabled on every weekday. -/
def nightQuiet : QuietTime :=
  { id := "q-night"
    name := "night"
    startTime := "22:00"
    endTime := "06:00"
    days := [0, 1, 2, 3, 4, 5, 6]
    enabled := true }

/-- Witness for C6: the 22:00–06:00 window fails to match 23:00, a time that is
inside it on the clock face, because its bounds are inverted lexicographically. -/
theorem c6_witness :
    ¬(nightQuiet.startTime ≤ "23:00" ∧ ("23:00" : String) ≤ nightQuiet.endTime) :=
  (c6_quiet_window_lexicographic [] 0 0 0).2 nightQuiet
    (by rw [show nightQuiet.endTime < nightQuiet.startTime ↔
          ("06:00" : String) < "22:00" from Iff.rfl, String.lt_iff_toList_lt]
        decide)
    "23:00"

/-- A 12:00–13:00 quiet window enabled on every weekday. -/
def lunchQuiet : QuietTime :=
  { id := "q-lunch"
    name := "lunch"
    startTime := "12:00"
    endTime := "13:00"
    days := [0, 1, 2, 3, 4, 5, 6]
    enabled := true }

/-- At 12:30 the lunch window matches. -/
theorem lunchQuiet_matches : isInQuietTime [lunchQuiet] 2 (currentTimeString 12 30) = true := by
  have h : currentTimeString 12 30 = "12:30" := by decide
  rw [h]
  simp only [isInQuietTime, List.any_eq_true, quietTimeMatches_eq_true, List.mem_singleton]
  refine ⟨lunchQuiet, rfl, rfl, by decide, ?_, ?_⟩ <;>
    rw [String.le_iff_toList_le] <;> decide

/-- At 13:30 the lunch window no longer matches. -/
theorem lunchQuiet_over : isInQuietTime [lunchQuiet] 2 (currentTimeString 13 30) = false := by
  have h : currentTimeString 13 30 = "13:30" := by decide
  have hgt : ¬(("13:30" : String) ≤ "13:00") := by
    rw [String.le_iff_toList_le]
    decide
  rw [h]
  simp only [isInQuietTime, List.any_eq_false, quietTimeMatches_eq_true, List.mem_singleton]
  rintro qt rfl ⟨-, -, -, h2⟩
  exact hgt h2

/-- C7: a poll tick taken while a quiet-time window matches or the manual quiet
flag is on fires no prompt and returns the scheduler state and the store
exactly unchanged; once suppression ends, a tick whose elapsed time since the
untouched `lastNotificationTime` reaches the interval fires the overdue prompt
from the original clock. -/
theorem c7_suppressed_tick_is_noop (c c' : Clock) (s : ServiceState) (st : Store)
    (hsup : isInQuietTime s.quietTimes c.day (currentTimeString c.hours c.minutes) = true ∨
      s.isQuietMode = true) :
    (checkForNotification c s st).svc = s ∧
    (checkForNotification c s st).store = st ∧
    (checkForNotification c s st).fired = false ∧
    (∀ last, s.lastNotificationTime = some last →
      isInQuietTime s.quietTimes c'.day (currentTimeString c'.hours c'.minutes) = false →
      s.isQuietMode = false →
      s.notificationInterval ≤ c'.nowMs - last →
      (checkForNotification c' s st).fired = true ∧
      (checkForNotification c' s st).svc.lastNotificationTime = some c'.nowMs) := by
  refine ⟨?_, ?_, ?_, ?_⟩
  · cases hl : s.lastNotificationTime <;>
      rcases hsup with h | h <;>
        simp [checkForNotification, hl, h]
  · cases hl : s.lastNotificationTime <;>
      rcases hsup with h | h <;>
        simp [checkForNotification, hl, h]
  · cases hl : s.lastNotificationTime <;>
      rcases hsup with h | h <;>
        simp [checkForNotification, hl, h]
  · intro last hl hq hm helapsed
    simp [checkForNotification, hl, hq, hm, helapsed, triggerNotification]

/-- The sample session, overdue and configured with the lunch quiet window. -/
def quietSvc : ServiceState :=
  { sampleTracking with quietTimes := [lunchQuiet] }

/-- Witness for C7: with 16000 ms elapsed, the tick at 12:30 inside the lunch
window changes nothing, and the tick at 13:30 after it ends fires the overdue
prompt. -/
theorem c7_witness :
    (checkForNotification { nowMs := 16000, day := 2, hours := 12, minutes := 30 }
        quietSvc sampleStore).svc = quietSvc ∧
    (checkForNotification { nowMs := 16000, day := 2, hours := 12, minutes := 30 }
        quietSvc sampleStore).fired = false ∧
    (checkForNotification { nowMs := 19600, day := 2, hours := 13, minutes := 30 }
        quietSvc sampleStore).fired = true :=
  ⟨(c7_suppressed_tick_is_noop { nowMs := 16000, day := 2, hours := 12, minutes := 30 }
      { nowMs := 19600, day := 2, hours := 13, minutes := 30 } quietSvc sampleStore
      (Or.inl lunchQuiet_matches)).1,
   (c7_suppressed_tick_is_noop { nowMs := 16000, day := 2, hours := 12, minutes := 30 }
      { nowMs := 19600, day := 2, hours := 13, minutes := 30 } quietSvc sampleStore
      (Or.inl lunchQuiet_matches)).2.2.1,
   ((c7_suppressed_tick_is_noop { nowMs := 16000, day := 2, hours := 12, minutes := 30 }
      { nowMs := 19600, day := 2, hours := 13, minutes := 30 } quietSvc sampleStore
      (Or.inl lunchQuiet_matches)).2.2.2 0 rfl lunchQuiet_over rfl (by decide)).1⟩

/-! The C2 scenario: session started at `T0` with a 15000 ms interval, the
prompt fires at `T0 + 15000`, the user submits 5 seconds late. -/

/-- The wall clock at `t` during the C2 scenario (weekday and time of day are
irrelevant because no quiet times are configured). -/
def c2Clock (t : Int) : Clock :=
  { nowMs := t, day := 2, hours := 9, minutes := 30 }

/-- State after `startTracking()` at `T0` from the idle initial state. -/
def c2Started (T0 : Int) : ServiceState × Store :=
  startTracking T0 initialService emptyStore

/-- The poll tick at `T0 + 15000`, which fires the prompt. -/
def c2Tick (T0 : Int) : TickResult :=
  checkForNotification (c2Clock (T0 + 15000)) (c2Started T0).1 (c2Started T0).2

/-- The user's submission at `T0 + 20000`, five seconds after the prompt. -/
def c2Record (T0 : Int) : Except String RecordResult :=
  addActivity (T0 + 20000) "abc" "wrote code" ["work", "coding"] none none none
    (c2Tick T0).svc (c2Tick T0).store

/-- The scheduler state after the late submission. -/
def c2AfterRecord (T0 : Int) : ServiceState :=
  match c2Record T0 with
  | Except.ok r => r.svc
  | Except.error _ => initialService

/-- C2: the prompt fires at `T0 + 15000`; the activity submitted at
`T0 + 20000` spans `[T0, T0 + 15000]` with duration 15000; recording does
not move the scheduler clock, no further prompt fires before `T0 + 30000`,
and the next prompt is due at `T0 + 30000` — not `T0 + 35000`. -/
theorem c2_late_submission (T0 k : Int) (hk0 : 0 ≤ k) (hk : k < 15000) :
    (c2Tick T0).fired = true ∧
    (c2Record T0).map
        (fun r => (r.activity.startTime, r.activity.endTime, r.activity.duration)) =
      Except.ok (T0, T0 + 15000, 15000) ∧
    c2AfterRecord T0 = (c2Tick T0).svc ∧
    (checkForNotification (c2Clock (T0 + 15000 + k)) (c2AfterRecord T0)
        (c2Tick T0).store).fired = false ∧
    (checkForNotification (c2Clock (T0 + 30000)) (c2AfterRecord T0)
        (c2Tick T0).store).fired = true := by
  have hstart : c2Started T0 =
      (⟨some 1, some T0, some T0, 15000, false, []⟩, ⟨some ⟨T0, T0⟩, []⟩) := by
    simp [c2Started, startTracking, initialService, emptyStore]
  have hge : (15000 : Int) ≤ T0 + 15000 - T0 := by omega
  have htick : c2Tick T0 =
      ⟨⟨some 1, some T0, some (T0 + 15000), 15000, false, []⟩,
       ⟨some ⟨T0, T0 + 15000⟩, []⟩, true⟩ := by
    rw [c2Tick, hstart]
    simp [checkForNotification, isInQuietTime, triggerNotification, c2Clock, hge]
  have hrec : c2Record T0 = Except.ok
      ⟨⟨some 1, some T0, some (T0 + 15000), 15000, false, []⟩,
       ⟨some ⟨T0, T0 + 15000⟩,
        [⟨generateId (T0 + 20000) "abc", "wrote code", ["work", "coding"], none, none,
          none, T0 + 15000 - 15000, T0 + 15000, 15000, T0 + 20000⟩]⟩,
       ⟨generateId (T0 + 20000) "abc", "wrote code", ["work", "coding"], none, none,
        none, T0 + 15000 - 15000, T0 + 15000, 15000, T0 + 20000⟩⟩ := by
    rw [c2Record, htick]
    simp [addActivity]
  have hafter : c2AfterRecord T0 =
      ⟨some 1, some T0, some (T0 + 15000), 15000, false, []⟩ := by
    simp only [c2AfterRecord]
    rw [hrec]
  refine ⟨?_, ?_, ?_, ?_, ?_⟩
  · rw [htick]
  · rw [hrec]
    simp [Except.map]
  · rw [hafter, htick]
  · rw [hafter, htick]
    have hlt : ¬((15000 : Int) ≤ k) := by omega
    simp [checkForNotification, isInQuietTime, c2Clock, hlt]
  · rw [hafter, htick]
    have hge2 : (15000 : Int) ≤ T0 + 30000 - (T0 + 15000) := by omega
    simp [checkForNotification, isInQuietTime, triggerNotification, c2Clock, hge2]

/-- Witness for C2 at `T0 = 0`, `k = 5000`. -/
theorem c2_witness :
    (c2Tick 0).fired = true ∧
    (c2Record 0).map
        (fun r => (r.activity.startTime, r.activity.endTime, r.activity.duration)) =
      Except.ok (0, 0 + 15000, 15000) ∧
    (checkForNotification (c2Clock (0 + 15000 + 5000)) (c2AfterRecord 0)
        (c2Tick 0).store).fired = false ∧
    (checkForNotification (c2Clock (0 + 30000)) (c2AfterRecord 0)
        (c2Tick 0).store).fired = true :=
  ⟨(c2_late_submission 0 5000 (by decide) (by decide)).1,
   (c2_late_submission 0 5000 (by decide) (by decide)).2.1,
   (c2_late_submission 0 5000 (by decide) (by decide)).2.2.2.1,
   (c2_late_submission 0 5000 (by decide) (by decide)).2.2.2.2⟩

/-- C4: the store's `stopTracking` only opens the final-entry modal, leaving
the poll timer, the scheduler state and the persisted session untouched; the
subsequent `addActivity` or `skipActivity` (with `isStopping` set) finalizes
the stop, tearing down the timer and clearing the session from memory and
from the store. -/
theorem c4_stop_waits_for_final_entry (a : AppState) (now : Int)
    (randSuffix description : String) (tags : List String) (k : Nat) (ss ln : Int)
    (htimer : a.svc.timerId = some k)
    (hss : a.svc.sessionStartTime = some ss)
    (hln : a.svc.lastNotificationTime = some ln) :
    (storeStopTracking a).svc = a.svc ∧
    (storeStopTracking a).svc.timerId = some k ∧
    (storeStopTracking a).store = a.store ∧
    (storeStopTracking a).showActivityModal = true ∧
    (storeStopTracking a).isStopping = true ∧
    ((storeAddActivity now randSuffix description tags none none none
        (storeStopTracking a)).svc.timerId = none ∧
      (storeAddActivity now randSuffix description tags none none none
        (storeStopTracking a)).svc.sessionStartTime = none ∧
      (storeAddActivity now randSuffix description tags none none none
        (storeStopTracking a)).svc.lastNotificationTime = none ∧
      (storeAddActivity now randSuffix description tags none none none
        (storeStopTracking a)).store.session = none ∧
      (storeAddActivity now randSuffix description tags none none none
        (storeStopTracking a)).isTracking = false ∧
      (storeAddActivity now randSuffix description tags none none none
        (storeStopTracking a)).isStopping = false) ∧
    ((storeSkipActivity now randSuffix (storeStopTracking a)).svc.timerId = none ∧
      (storeSkipActivity now randSuffix (storeStopTracking a)).store.session = none ∧
      (storeSkipActivity now randSuffix (storeStopTracking a)).isTracking = false) := by
  refine ⟨rfl, htimer, rfl, rfl, rfl, ?_, ?_⟩
  · simp only [storeAddActivity, storeStopTracking, addActivity, hss, hln]
    simp [finalizeStopTracking, stopTracking]
  · simp only [storeSkipActivity, storeStopTracking, addActivity, hss, hln]
    simp [finalizeStopTracking, stopTracking]

/-- The app state of an active session at the sample tracking state. -/
def sampleApp : AppState :=
  { svc := sampleTracking
    store := sampleStore
    isTracking := true
    isStopping := false
    showActivityModal := false
    sessionStartTime := some 0
    lastNotificationTime := some 0 }

/-- Witness for C4 on the sample session: stop leaves the timer alive; the
final recorded entry tears everything down. -/
theorem c4_witness :
    (storeStopTracking sampleApp).svc.timerId = some 1 ∧
    (storeStopTracking sampleApp).isStopping = true ∧
    (storeAddActivity 20000 "r" "emails" [] none none none
        (storeStopTracking sampleApp)).svc.timerId = none ∧
    (storeAddActivity 20000 "r" "emails" [] none none none
        (storeStopTracking sampleApp)).store.session = none :=
  ⟨(c4_stop_waits_for_final_entry sampleApp 20000 "r" "emails" [] 1 0 0 rfl rfl rfl).2.1,
   (c4_stop_waits_for_final_entry sampleApp 20000 "r" "emails" [] 1 0 0 rfl rfl rfl).2.2.2.2.1,
   (c4_stop_waits_for_final_entry sampleApp 20000 "r" "emails" [] 1 0 0 rfl rfl rfl).2.2.2.2.2.1.1,
   (c4_stop_waits_for_final_entry sampleApp 20000 "r" "emails" [] 1 0 0 rfl rfl rfl).2.2.2.2.2.1.2.2.2.1⟩

end TimeTracker
